import Mathlib

/-!
Verification of the AIS/NMEA codec and transmission scheduler of the
nmea-simulator repository.  Python strings are embedded as `List Char`,
Python ints as `Nat`/`Int`, Python floats (used only for degrees, knots
and seconds, where every operation relevant to the properties below is
exact) as `ℚ`, and timestamps as `ℚ` seconds.  Each definition mirrors
one function of the source, keeping its name where Lean allows it.
-/

/-- AIS_6BIT_ASCII table from nmea_lib/ais/constants.py: the 64-entry
6-bit ASCII alphabet, index 0 mapping to the character 0. -/
def AIS_6BIT_ASCII : List Char :=
  ['0', '1', '2', '3', '4', '5', '6', '7', '8', '9', ':', ';', '<', '=', '>', '?',
   '@', 'A', 'B', 'C', 'D', 'E', 'F', 'G', 'H', 'I', 'J', 'K', 'L', 'M', 'N', 'O',
   'P', 'Q', 'R', 'S', 'T', 'U', 'V', 'W', 'X', 'Y', 'Z', '[', '\\', ']', '^', '_',
   '`', 'a', 'b', 'c', 'd', 'e', 'f', 'g', 'h', 'i', 'j', 'k', 'l', 'm', 'n', 'o']

/-- Value of one character of a binary string, as read by Python int(chunk, 2)
(the sources only apply it to characters 0 and 1). -/
def bitVal (c : Char) : Nat := if c = '1' then 1 else 0

/-- Python int(chunk, 2): numeric value of a binary string (most significant
bit first). -/
def bitsToNat (l : List Char) : Nat := l.foldl (fun acc c => 2 * acc + bitVal c) 0

/-- AIS6BitEncoder.calculate_fill_bits from nmea_lib/ais/encoder.py. -/
def calculate_fill_bits (binary_length : Nat) : Nat :=
  if binary_length % 6 = 0 then 0 else 6 - binary_length % 6

/-- The padding loop of encode_binary_to_6bit: append the character 0 until
the length is a multiple of 6 (closed form of the while loop). -/
def padTo6 (b : List Char) : List Char :=
  b ++ List.replicate (calculate_fill_bits b.length) '0'

/-- Successive 6-character chunks of a string, as produced by
range(0, len, 6) slicing in encode_binary_to_6bit. -/
def chunks6 : List Char → List (List Char)
  | a :: b :: c :: d :: e :: f :: rest => [a, b, c, d, e, f] :: chunks6 rest
  | [] => []
  | xs => [xs]

/-- Armoring of one 6-bit chunk: AIS_6BIT_ASCII[int(chunk, 2)]. -/
def encodeChunk (ch : List Char) : Char := AIS_6BIT_ASCII.getD (bitsToNat ch) '0'

/-- AIS6BitEncoder.encode_binary_to_6bit from nmea_lib/ais/encoder.py. -/
def encode_binary_to_6bit (binary_data : List Char) : List Char :=
  (chunks6 (padTo6 binary_data)).map encodeChunk

/-- Digits of format(n, 'b') for positive n, most significant first, by
repeated division by 2.  The first argument is fuel bounding the number
of divisions, so that the recursion is structural; any fuel of at least
the bit count of n, in particular n itself, yields all digits. -/
def natBinFuel : Nat → Nat → List Char
  | 0, _ => []
  | fuel + 1, n =>
      if n = 0 then []
      else natBinFuel fuel (n / 2) ++ [if n % 2 = 1 then '1' else '0']

/-- Python format(n, 'b') for a natural number: binary digit characters,
most significant first, without leading zeros (a single 0 for n = 0). -/
def natBin (n : Nat) : List Char := if n = 0 then ['0'] else natBinFuel n n

/-- Left padding with a character up to a given width, as done by the
0-width Python format specifications. -/
def padLeft (c : Char) (w : Nat) (l : List Char) : List Char :=
  List.replicate (w - l.length) c ++ l

/-- Python format(v, '06b') for v below 64: six binary digit characters. -/
def natToBits6 (v : Nat) : List Char := padLeft '0' 6 (natBin v)

/-- De-armoring of one payload character in decode_6bit_to_binary: a table
character yields the six binary digits of its index, any other character
yields six 0 digits. -/
def decodeChar (c : Char) : List Char :=
  if c ∈ AIS_6BIT_ASCII then natToBits6 (AIS_6BIT_ASCII.indexOf c)
  else List.replicate 6 '0'

/-- AIS6BitEncoder.decode_6bit_to_binary from nmea_lib/ais/encoder.py. -/
def decode_6bit_to_binary (encoded_data : List Char) : List Char :=
  encoded_data.flatMap decodeChar

/-- Helper: de-armoring inverts armoring on any single 6-character binary
chunk (checked over all 64 chunks). -/
theorem decodeChar_encodeChunk (a b c d e f : Char)
    (ha : a = '0' ∨ a = '1') (hb : b = '0' ∨ b = '1') (hc : c = '0' ∨ c = '1')
    (hd : d = '0' ∨ d = '1') (he : e = '0' ∨ e = '1') (hf : f = '0' ∨ f = '1') :
    decodeChar (encodeChunk [a, b, c, d, e, f]) = [a, b, c, d, e, f] := by
  rcases ha with rfl | rfl <;> rcases hb with rfl | rfl <;> rcases hc with rfl | rfl <;>
    rcases hd with rfl | rfl <;> rcases he with rfl | rfl <;> rcases hf with rfl | rfl <;> decide

/-- Helper: de-armoring inverts armoring on any binary string whose length
is a multiple of 6, by induction six characters at a time. -/
theorem decode_map_chunks : ∀ (n : Nat) (P : List Char), P.length = n →
    (∀ c ∈ P, c = '0' ∨ c = '1') → P.length % 6 = 0 →
    decode_6bit_to_binary ((chunks6 P).map encodeChunk) = P := by
  intro n
  induction n using Nat.strong_induction_on with
  | _ n ih =>
    intro P hPn hbin hl
    match P, hPn with
    | [], _ => rfl
    | [a], hPn => simp at hl
    | [a, b], hPn => simp at hl
    | [a, b, c], hPn => simp at hl
    | [a, b, c, d], hPn => simp at hl
    | [a, b, c, d, e], hPn => simp at hl
    | a :: b :: c :: d :: e :: f :: rest, hPn =>
      have hrl : rest.length % 6 = 0 := by simp [List.length_cons] at hl; omega
      have hrb : ∀ x ∈ rest, x = '0' ∨ x = '1' := fun x hx => hbin x (by simp [hx])
      have hlt : rest.length < n := by
        simp [List.length_cons] at hPn; omega
      have hrec := ih rest.length hlt rest rfl hrb hrl
      have h6 := decodeChar_encodeChunk a b c d e f
        (hbin a (by simp)) (hbin b (by simp)) (hbin c (by simp)) (hbin d (by simp))
        (hbin e (by simp)) (hbin f (by simp))
      simp only [chunks6, List.map_cons, decode_6bit_to_binary, List.flatMap_cons] at hrec ⊢
      rw [h6, hrec]
      rfl

/-- Helper: the padding step always reaches a multiple of 6. -/
theorem padTo6_mod (B : List Char) : (padTo6 B).length % 6 = 0 := by
  simp only [padTo6, List.length_append, List.length_replicate, calculate_fill_bits]
  split <;> omega

/-- Helper: decoding an armored binary string recovers the padded input. -/
theorem decode_encode (B : List Char) (hB : ∀ c ∈ B, c = '0' ∨ c = '1') :
    decode_6bit_to_binary (encode_binary_to_6bit B) = padTo6 B := by
  apply decode_map_chunks (padTo6 B).length (padTo6 B) rfl _ (padTo6_mod B)
  intro c hc
  rcases List.mem_append.1 hc with h | h
  · exact hB c h
  · left; exact List.eq_of_mem_replicate h

/-- C2: for every binary string B, decode_6bit_to_binary of
encode_binary_to_6bit of B starts with B, has length equal to the length
of B rounded up to the next multiple of 6, and its extra trailing
characters are all 0. -/
theorem C2_sixbit_roundtrip (B : List Char) (hB : ∀ c ∈ B, c = '0' ∨ c = '1') :
    (decode_6bit_to_binary (encode_binary_to_6bit B)).take B.length = B
    ∧ (decode_6bit_to_binary (encode_binary_to_6bit B)).length = 6 * ((B.length + 5) / 6)
    ∧ (decode_6bit_to_binary (encode_binary_to_6bit B)).drop B.length
        = List.replicate (6 * ((B.length + 5) / 6) - B.length) '0' := by
  rw [decode_encode B hB]
  refine ⟨List.take_left _ _, ?_, ?_⟩
  · simp only [padTo6, List.length_append, List.length_replicate, calculate_fill_bits]
    split <;> omega
  · rw [padTo6, List.drop_left]
    congr 1
    simp only [calculate_fill_bits]
    split <;> omega

/-- C2 witness: the round-trip law evaluated at the binary string 101. -/
theorem C2_sixbit_roundtrip_witness :
    (decode_6bit_to_binary (encode_binary_to_6bit ['1','0','1'])).take 3 = ['1','0','1']
    ∧ (decode_6bit_to_binary (encode_binary_to_6bit ['1','0','1'])).length = 6
    ∧ (decode_6bit_to_binary (encode_binary_to_6bit ['1','0','1'])).drop 3
        = List.replicate 3 '0' :=
  C2_sixbit_roundtrip ['1','0','1'] (by decide)

/-- C3 counterexample: encode_binary_to_6bit of 111111 is the character o
(table index 63), not the character ? claimed by the spec. -/
theorem C3_counterexample : encode_binary_to_6bit "111111".toList ≠ "?".toList := by decide

/-- C3 amended: encode_binary_to_6bit maps 000001000010000011 to 123,
111111 to o (not ?), and 000000 to 0. -/
theorem C3_amended :
    encode_binary_to_6bit "000001000010000011".toList = "123".toList
    ∧ encode_binary_to_6bit "111111".toList = "o".toList
    ∧ encode_binary_to_6bit "000000".toList = "0".toList := by decide

/-- AISMultiPartHandler.split_message from nmea_lib/ais/encoder.py with its
default max_chars_per_part of 56: successive slices of at most 336 bits
(range(0, len, 336) slicing). -/
def split_message (binary_data : List Char) : List (List Char) :=
  if h : binary_data = [] then []
  else binary_data.take 336 :: split_message (binary_data.drop 336)
termination_by binary_data.length
decreasing_by
  simp only [List.length_drop]
  exact Nat.sub_lt (List.length_pos.mpr h) (by norm_num)

/-- AISMultiPartHandler.needs_splitting from nmea_lib/ais/encoder.py with its
default max_chars of 56: the armored length in characters exceeds 56. -/
def needs_splitting (binary_data : List Char) : Bool :=
  decide (56 < (binary_data.length + calculate_fill_bits binary_data.length) / 6)

/-- AISMultiPartHandler.get_part_count from nmea_lib/ais/encoder.py with its
default max_chars_per_part of 56. -/
def get_part_count (binary_data : List Char) : Nat :=
  if needs_splitting binary_data = false then 1
  else (binary_data.length + 336 - 1) / 336

/-- AIVDMSentence from nmea_lib/sentences/aivdm.py (the fields of its
constructor; a missing sequential message id is stored as the empty
string). -/
structure AIVDMSentence where
  total_sentences : Nat
  sentence_number : Nat
  sequential_message_id : List Char
  channel : Char
  payload : List Char
  fill_bits : Nat

/-- AIVDMSentence.from_binary_message from nmea_lib/sentences/aivdm.py. -/
def from_binary_message (binary_data : List Char) (channel : Char)
    (sequential_id : List Char) : List AIVDMSentence :=
  if needs_splitting binary_data then
    let parts := split_message binary_data
    parts.mapIdx fun i part =>
      { total_sentences := parts.length
        sentence_number := i + 1
        sequential_message_id := sequential_id
        channel := channel
        payload := encode_binary_to_6bit part
        fill_bits := calculate_fill_bits part.length }
  else
    [{ total_sentences := 1
       sentence_number := 1
       sequential_message_id := sequential_id
       channel := channel
       payload := encode_binary_to_6bit binary_data
       fill_bits := calculate_fill_bits binary_data.length }]

/-- Helper: a payload needs splitting exactly when it is longer than
336 bits. -/
theorem needs_splitting_iff (b : List Char) :
    needs_splitting b = true ↔ 336 < b.length := by
  simp only [needs_splitting, calculate_fill_bits, decide_eq_true_eq]
  split <;> omega

/-- Helper: the number of slices produced by split_message on a nonempty
payload is its bit length divided by 336, rounded up. -/
theorem split_message_length : ∀ (n : Nat) (b : List Char), b.length = n → b ≠ [] →
    (split_message b).length = (b.length + 335) / 336 := by
  intro n
  induction n using Nat.strong_induction_on with
  | _ n ih =>
    intro b hbn hne
    rw [split_message]
    simp only [hne, dite_false]
    by_cases hd : b.drop 336 = []
    · rw [split_message]
      simp only [hd, dite_true, List.length_cons, List.length_nil]
      have : b.length ≤ 336 := by
        have := List.length_drop 336 b ▸ congrArg List.length hd
        simp at this; omega
      have hpos : 0 < b.length := List.length_pos.mpr hne
      omega
    · have hlen : (b.drop 336).length = b.length - 336 := List.length_drop 336 b
      have hgt : 336 < b.length := by
        rcases Nat.lt_or_ge 336 b.length with h | h
        · exact h
        · exact absurd (by rw [List.drop_eq_nil_iff]; exact h) hd
      have := ih (b.drop 336).length (by omega) (b.drop 336) rfl hd
      simp only [List.length_cons, this, hlen]
      omega

/-- Helper: every slice produced by split_message is at most 336 bits. -/
theorem split_message_parts : ∀ (n : Nat) (b : List Char), b.length = n →
    ∀ p ∈ split_message b, p.length ≤ 336 := by
  intro n
  induction n using Nat.strong_induction_on with
  | _ n ih =>
    intro b hbn p hp
    rw [split_message] at hp
    by_cases hne : b = []
    · simp [hne] at hp
    · simp only [hne, dite_false, List.mem_cons] at hp
      rcases hp with rfl | hp
      · simp [List.length_take]
      · by_cases hd : b.drop 336 = []
        · rw [split_message] at hp; simp [hd] at hp
        · have hgt : 336 < b.length := by
            rcases Nat.lt_or_ge 336 b.length with h | h
            · exact h
            · exact absurd (by rw [List.drop_eq_nil_iff]; exact h) hd
          exact ih (b.drop 336).length (by simp; omega) (b.drop 336) rfl p hp

/-- Helper: the number of 6-character chunks of a string whose length is a
multiple of 6. -/
theorem chunks6_length : ∀ (n : Nat) (P : List Char), P.length = n → P.length % 6 = 0 →
    (chunks6 P).length = P.length / 6 := by
  intro n
  induction n using Nat.strong_induction_on with
  | _ n ih =>
    intro P hPn hl
    match P, hPn with
    | [], _ => rfl
    | [a], hPn => simp at hl
    | [a, b], hPn => simp at hl
    | [a, b, c], hPn => simp at hl
    | [a, b, c, d], hPn => simp at hl
    | [a, b, c, d, e], hPn => simp at hl
    | a :: b :: c :: d :: e :: f :: rest, hPn =>
      have hrl : rest.length % 6 = 0 := by simp [List.length_cons] at hl; omega
      have hlt : rest.length < n := by simp [List.length_cons] at hPn; omega
      have := ih rest.length hlt rest rfl hrl
      simp only [chunks6, List.length_cons, this]
      omega

/-- Helper: the armored form of a payload has one character per 6 bits,
rounded up. -/
theorem encode_length (b : List Char) :
    (encode_binary_to_6bit b).length = (b.length + 5) / 6 := by
  have h1 : (padTo6 b).length = b.length + calculate_fill_bits b.length := by
    simp [padTo6]
  have h2 : (padTo6 b).length % 6 = 0 := by
    simp only [h1, calculate_fill_bits]; split <;> omega
  simp only [encode_binary_to_6bit, List.length_map,
    chunks6_length (padTo6 b).length (padTo6 b) rfl h2, h1, calculate_fill_bits]
  split <;> omega

/-- C5 counterexample: an empty binary payload produces one fragment,
not ceil(0 / 336) = 0 fragments, so the general fragment-count formula of
the claim fails on the empty payload. -/
theorem C5_counterexample :
    (from_binary_message [] 'A' []).length ≠ (List.length ([] : List Char) + 335) / 336 := by
  decide

/-- C5 amended: for every nonempty binary payload, a payload of exactly
336 bits is not split and yields one fragment, a payload of 337 bits is
split into two fragments, the fragment count of from_binary_message and
the value of get_part_count both equal ceil(bits / 336), and each
fragment's armored payload holds at most 56 characters, so at most 336
bits.  (An empty payload yields one fragment, not zero.) -/
theorem C5_multipart_split (b : List Char) (ch : Char) (sid : List Char) (hne : b ≠ []) :
    (b.length = 336 → needs_splitting b = false ∧ (from_binary_message b ch sid).length = 1)
    ∧ (b.length = 337 → needs_splitting b = true ∧ (from_binary_message b ch sid).length = 2)
    ∧ (from_binary_message b ch sid).length = (b.length + 335) / 336
    ∧ get_part_count b = (b.length + 335) / 336
    ∧ ∀ s ∈ from_binary_message b ch sid, s.payload.length ≤ 56 := by
  have hpos : 0 < b.length := List.length_pos.mpr hne
  have hcount : (from_binary_message b ch sid).length = (b.length + 335) / 336 := by
    by_cases hs : needs_splitting b = true
    · have hgt := (needs_splitting_iff b).mp hs
      simp only [from_binary_message, hs, if_true, List.length_mapIdx]
      exact split_message_length b.length b rfl hne
    · have hle : b.length ≤ 336 := by
        rcases Nat.lt_or_ge 336 b.length with h | h
        · exact absurd ((needs_splitting_iff b).mpr h) hs
        · exact h
      simp only [from_binary_message, hs, if_false, Bool.false_eq_true, List.length_singleton]
      omega
  refine ⟨?_, ?_, hcount, ?_, ?_⟩
  · intro h336
    have hns : needs_splitting b = false := by
      rcases Bool.eq_false_or_eq_true (needs_splitting b) with h | h
      · have := (needs_splitting_iff b).mp h; omega
      · exact h
    exact ⟨hns, by rw [hcount]; omega⟩
  · intro h337
    have hns : needs_splitting b = true := (needs_splitting_iff b).mpr (by omega)
    exact ⟨hns, by rw [hcount]; omega⟩
  · by_cases hs : needs_splitting b = true
    · have hgt := (needs_splitting_iff b).mp hs
      simp only [get_part_count, hs]
      rw [if_neg (by simp)]
      omega
    · have hle : b.length ≤ 336 := by
        rcases Nat.lt_or_ge 336 b.length with h | h
        · exact absurd ((needs_splitting_iff b).mpr h) hs
        · exact h
      simp only [get_part_count, Bool.not_eq_true] at hs ⊢
      simp only [hs, if_true]
      omega
  · intro s hs
    by_cases hsp : needs_splitting b = true
    · simp only [from_binary_message, hsp, if_true, List.mem_mapIdx] at hs
      obtain ⟨i, hi, rfl⟩ := hs
      simp only [encode_length]
      have hp : (split_message b)[i].length ≤ 336 :=
        split_message_parts b.length b rfl _ (List.getElem_mem hi)
      omega
    · have hle : b.length ≤ 336 := by
        rcases Nat.lt_or_ge 336 b.length with h | h
        · exact absurd ((needs_splitting_iff b).mpr h) hsp
        · exact h
      simp only [from_binary_message, hsp, if_false, Bool.false_eq_true,
        List.mem_singleton] at hs
      subst hs
      simp only [encode_length]
      omega

/-- C5 witness: a 337-bit payload needs splitting and yields exactly two
fragments. -/
theorem C5_multipart_split_witness :
    needs_splitting (List.replicate 337 '0') = true
    ∧ (from_binary_message (List.replicate 337 '0') 'A' []).length = 2 :=
  (C5_multipart_split (List.replicate 337 '0') 'A' []
    (by simp only [ne_eq, List.replicate_eq_nil_iff]; omega)).2.1
    (by simp only [List.length_replicate])

/-- XOR checksum over the characters of a sentence body, as computed both
by SentenceValidator.calculate_checksum in nmea_lib/validator.py and by
the loop in AIVDMSentence.__str__ in nmea_lib/sentences/aivdm.py. -/
def xor_checksum (sentence_body : List Char) : Nat :=
  sentence_body.foldl (fun acc c => acc ^^^ c.toNat) 0

/-- Single uppercase hexadecimal digit for a value below 16. -/
def hexDigit (d : Nat) : Char :=
  if d < 10 then Char.ofNat (48 + d) else Char.ofNat (55 + d)

/-- Python format(n, '02X') for n below 256 (an XOR of ASCII character
codes is always below 128, so two digits always suffice). -/
def checksumHex (n : Nat) : List Char := [hexDigit (n / 16), hexDigit (n % 16)]

/-- AIVDMSentence.__str__ from nmea_lib/sentences/aivdm.py: the comma-joined
field list prefixed by an exclamation mark and followed by a star and the
two-digit uppercase hexadecimal XOR checksum of the body. -/
def aivdm_to_str (s : AIVDMSentence) : List Char :=
  let fields : List (List Char) :=
    ["AIVDM".toList, (Nat.repr s.total_sentences).toList,
     (Nat.repr s.sentence_number).toList, s.sequential_message_id,
     [s.channel], s.payload, (Nat.repr s.fill_bits).toList]
  let body := List.intercalate [','] fields
  '!' :: (body ++ '*' :: checksumHex (xor_checksum body))

/-- C8: the XOR checksum of the fixture body is 0x75 and the rendered
single-fragment AIVDM sentence is exactly the documented literal. -/
theorem C8_checksum_fixture :
    xor_checksum "AIVDM,1,1,,A,13HOI:0P1kG?Vl@EWFk3NReh0000,0".toList = 0x75
    ∧ aivdm_to_str
        { total_sentences := 1
          sentence_number := 1
          sequential_message_id := []
          channel := 'A'
          payload := "13HOI:0P1kG?Vl@EWFk3NReh0000".toList
          fill_bits := 0 }
      = "!AIVDM,1,1,,A,13HOI:0P1kG?Vl@EWFk3NReh0000,0*75".toList := by
  decide

/-- Python round() on an exact rational value: round half to even (the
float inputs of the encoders are modelled as exact rationals). -/
def pyRound (x : ℚ) : ℤ :=
  let f := ⌊x⌋
  let frac := x - f
  if frac < 1/2 then f
  else if 1/2 < frac then f + 1
  else if f % 2 = 0 then f else f + 1

/-- AISBinaryEncoder._encode_bits from nmea_lib/ais/messages.py: negative
values are shifted by 2 to the power of bits (two's complement), then the
result is rendered by format(value, '0{bits}b'), zero-padded on the left
to the requested width (never truncated). -/
def encode_bits (value : Int) (bits : Nat) : List Char :=
  let v : Int := if value < 0 then 2 ^ bits + value else value
  if v < 0 then '-' :: padLeft '0' (bits - 1) (natBin (-v).toNat)
  else padLeft '0' bits (natBin v.toNat)

/-- AISBinaryEncoder._encode_string from nmea_lib/ais/messages.py: the text
is space-padded (ljust) then truncated to max_chars, and each character is
uppercased and mapped to its code point minus 32 when the uppercased code
point lies in 32..95, else to 0.  Python str.upper() is modelled by
Char.toUpper, which agrees with it on ASCII text. -/
def encode_string (text : List Char) (max_chars : Nat) : List Char :=
  let padded := (text ++ List.replicate (max_chars - text.length) ' ').take max_chars
  padded.flatMap fun ch =>
    let ascii_val : Nat := if ch = ' ' then 32 else ch.toUpper.toNat
    let six_bit : Int := if 32 ≤ ascii_val ∧ ascii_val ≤ 95 then (ascii_val : Int) - 32 else 0
    encode_bits six_bit 6

/-- Sentinel and maximum constants from nmea_lib/ais/constants.py used by
the field encoders (the float literal 102.3 is the exact rational
1023/10 in this model). -/
def AIS_NOT_AVAILABLE_latitude : ℚ := 91

/-- Longitude not-available sentinel from nmea_lib/ais/constants.py. -/
def AIS_NOT_AVAILABLE_longitude : ℚ := 181

/-- Speed-over-ground not-available threshold from nmea_lib/ais/constants.py. -/
def AIS_MAX_VALUES_sog : ℚ := 1023/10

/-- Course-over-ground not-available threshold from nmea_lib/ais/constants.py. -/
def AIS_MAX_VALUES_cog : ℚ := 360

/-- Heading not-available threshold from nmea_lib/ais/constants.py. -/
def AIS_MAX_VALUES_heading : Int := 511

/-- Rate-of-turn not-available sentinel from nmea_lib/ais/constants.py. -/
def AIS_MAX_VALUES_rot : Int := 128

/-- AISBinaryEncoder._encode_latitude from nmea_lib/ais/messages.py. -/
def encode_latitude (lat : ℚ) : List Char :=
  if lat = AIS_NOT_AVAILABLE_latitude then encode_bits 0x3412140 27
  else encode_bits (max (-324000000) (min 324000000 (pyRound (lat * 600000)))) 27

/-- AISBinaryEncoder._encode_longitude from nmea_lib/ais/messages.py. -/
def encode_longitude (lon : ℚ) : List Char :=
  if lon = AIS_NOT_AVAILABLE_longitude then encode_bits 0x6791AC0 28
  else encode_bits (max (-648000000) (min 648000000 (pyRound (lon * 600000)))) 28

/-- AISBinaryEncoder._encode_sog from nmea_lib/ais/messages.py. -/
def encode_sog (sog : ℚ) : List Char :=
  if AIS_MAX_VALUES_sog ≤ sog then encode_bits 1023 10
  else encode_bits (max 0 (min 1022 (pyRound (sog * 10)))) 10

/-- AISBinaryEncoder._encode_cog from nmea_lib/ais/messages.py. -/
def encode_cog (cog : ℚ) : List Char :=
  if AIS_MAX_VALUES_cog ≤ cog then encode_bits 3600 12
  else encode_bits (max 0 (min 3599 (pyRound (cog * 10)))) 12

/-- AISBinaryEncoder._encode_heading from nmea_lib/ais/messages.py. -/
def encode_heading (heading : Int) : List Char :=
  if AIS_MAX_VALUES_heading ≤ heading then encode_bits 511 9
  else encode_bits (max 0 (min 359 heading)) 9

/-- Rational approximation of math.sqrt used only inside encode_rot: exact
to one millionth.  No theorem below depends on its value, because the
rate-of-turn result is clamped into -127..127 and then encoded at the
fixed width of 8 bits. -/
def sqrtApprox (n : Nat) : ℚ := (Nat.sqrt (n * 10 ^ 12) : ℚ) / 10 ^ 6

/-- AISBinaryEncoder._encode_rot from nmea_lib/ais/messages.py: the
sentinel 128 passes through, zero encodes zero, and otherwise the
magnitude is round(4.733 * sqrt(abs(rot))), clamped and sign-preserved. -/
def encode_rot (rot : Int) : List Char :=
  if rot = AIS_MAX_VALUES_rot then encode_bits 128 8
  else if rot = 0 then encode_bits 0 8
  else if 0 < rot then
    encode_bits (min 127 (pyRound (4733/1000 * sqrtApprox rot.natAbs))) 8
  else
    encode_bits (max (-127) (-(pyRound (4733/1000 * sqrtApprox rot.natAbs)))) 8

/-- Position from nmea_lib/types/position.py: the two coordinate fields
used by the AIS encoders. -/
structure Position where
  latitude : ℚ
  longitude : ℚ

/-- VesselNavigationData from nmea_lib/types/vessel.py (nav_status stores
the .value of the NavigationStatus enumeration member). -/
structure VesselNavigationData where
  position : Position
  sog : ℚ
  cog : ℚ
  heading : Int
  nav_status : Int
  rot : Int
  timestamp : Int
  position_accuracy : Int
  raim : Int
  radio_status : Int

/-- VesselDimensions from nmea_lib/types/vessel.py; to_ais_format returns
the four fields in declaration order. -/
structure VesselDimensions where
  to_bow : Int
  to_stern : Int
  to_port : Int
  to_starboard : Int

/-- VesselETA from nmea_lib/types/vessel.py; to_ais_format returns the
four fields in declaration order. -/
structure VesselETA where
  month : Int
  day : Int
  hour : Int
  minute : Int

/-- VesselStaticData from nmea_lib/types/vessel.py (the fields read by the
encoders; ship_type and epfd_type store enumeration .value numbers). -/
structure VesselStaticData where
  mmsi : Int
  vessel_name : List Char
  callsign : List Char
  ship_type : Int
  dimensions : VesselDimensions
  epfd_type : Int
  imo_number : Option Int

/-- VesselVoyageData from nmea_lib/types/vessel.py (the fields read by the
encoders). -/
structure VesselVoyageData where
  destination : List Char
  eta : VesselETA
  draught : ℚ
  dte : Int

/-- VesselState from nmea_lib/types/vessel.py (the three data groups read
by the encoders). -/
structure VesselState where
  static_data : VesselStaticData
  navigation_data : VesselNavigationData
  voyage_data : VesselVoyageData

/-- VesselState.mmsi property: the MMSI of the static data. -/
def VesselState.mmsi (v : VesselState) : Int := v.static_data.mmsi

/-- The UTC components of the datetime read by encode_type_4. -/
structure UTCTime where
  year : Int
  month : Int
  day : Int
  hour : Int
  minute : Int
  second : Int

/-- BaseStationData from nmea_lib/types/vessel.py. -/
structure BaseStationData where
  mmsi : Int
  position : Position
  timestamp : UTCTime
  epfd_type : Int
  raim : Int
  radio_status : Int

/-- AidToNavigationData from nmea_lib/types/vessel.py. -/
structure AidToNavigationData where
  mmsi : Int
  position : Position
  aid_type : Int
  name : List Char
  dimensions : VesselDimensions
  epfd_type : Int
  timestamp : Int
  off_position : Int
  regional : Int
  raim : Int
  virtual_aid : Int
  assigned : Int
  position_accuracy : Int

/-- AISBinaryEncoder.encode_type_1 from nmea_lib/ais/messages.py (the
binary payload; the parallel input-trace dictionary is a logging artifact
and is not modelled). -/
def encode_type_1 (vessel : VesselState) : List Char :=
  let nav := vessel.navigation_data
  encode_bits 1 6
    ++ encode_bits 0 2
    ++ encode_bits vessel.mmsi 30
    ++ encode_bits nav.nav_status 4
    ++ encode_rot nav.rot
    ++ encode_sog nav.sog
    ++ encode_bits nav.position_accuracy 1
    ++ encode_longitude nav.position.longitude
    ++ encode_latitude nav.position.latitude
    ++ encode_cog nav.cog
    ++ encode_heading nav.heading
    ++ encode_bits nav.timestamp 6
    ++ encode_bits 0 2
    ++ encode_bits 0 3
    ++ encode_bits nav.raim 1
    ++ encode_bits nav.radio_status 19

/-- AISBinaryEncoder.encode_type_2 from nmea_lib/ais/messages.py: the
type-1 payload with its first 6 bits replaced by the type code 2. -/
def encode_type_2 (vessel : VesselState) : List Char :=
  encode_bits 2 6 ++ (encode_type_1 vessel).drop 6

/-- AISBinaryEncoder.encode_type_3 from nmea_lib/ais/messages.py: the
type-1 payload with its first 6 bits replaced by the type code 3. -/
def encode_type_3 (vessel : VesselState) : List Char :=
  encode_bits 3 6 ++ (encode_type_1 vessel).drop 6

/-- AISBinaryEncoder.encode_type_4 from nmea_lib/ais/messages.py. -/
def encode_type_4 (base_station : BaseStationData) : List Char :=
  let utc_time := base_station.timestamp
  encode_bits 4 6
    ++ encode_bits 0 2
    ++ encode_bits base_station.mmsi 30
    ++ encode_bits utc_time.year 14
    ++ encode_bits utc_time.month 4
    ++ encode_bits utc_time.day 5
    ++ encode_bits utc_time.hour 5
    ++ encode_bits utc_time.minute 6
    ++ encode_bits utc_time.second 6
    ++ encode_bits 1 1
    ++ encode_longitude base_station.position.longitude
    ++ encode_latitude base_station.position.latitude
    ++ encode_bits base_station.epfd_type 4
    ++ encode_bits 0 10
    ++ encode_bits base_station.raim 1
    ++ encode_bits base_station.radio_status 19

/-- AISBinaryEncoder.encode_type_5 from nmea_lib/ais/messages.py (Python
"imo_number or 0" yields 0 both for None and for 0). -/
def encode_type_5 (vessel : VesselState) : List Char :=
  let static := vessel.static_data
  let voyage := vessel.voyage_data
  let dims := static.dimensions
  let eta := voyage.eta
  let draught_int : Int := if voyage.draught < 51/2 then pyRound (voyage.draught * 10) else 0
  encode_bits 5 6
    ++ encode_bits 0 2
    ++ encode_bits vessel.mmsi 30
    ++ encode_bits 0 2
    ++ encode_bits (static.imo_number.getD 0) 30
    ++ encode_string static.callsign 7
    ++ encode_string static.vessel_name 20
    ++ encode_bits static.ship_type 8
    ++ encode_bits dims.to_bow 9
    ++ encode_bits dims.to_stern 9
    ++ encode_bits dims.to_port 6
    ++ encode_bits dims.to_starboard 6
    ++ encode_bits static.epfd_type 4
    ++ encode_bits eta.month 4
    ++ encode_bits eta.day 5
    ++ encode_bits eta.hour 5
    ++ encode_bits eta.minute 6
    ++ encode_bits draught_int 8
    ++ encode_string voyage.destination 20
    ++ encode_bits voyage.dte 1
    ++ encode_bits 0 1

/-- AISBinaryEncoder.encode_type_18 from nmea_lib/ais/messages.py. -/
def encode_type_18 (vessel : VesselState) : List Char :=
  let nav := vessel.navigation_data
  encode_bits 18 6
    ++ encode_bits 0 2
    ++ encode_bits vessel.mmsi 30
    ++ encode_bits 0 8
    ++ encode_sog nav.sog
    ++ encode_bits nav.position_accuracy 1
    ++ encode_longitude nav.position.longitude
    ++ encode_latitude nav.position.latitude
    ++ encode_cog nav.cog
    ++ encode_heading nav.heading
    ++ encode_bits nav.timestamp 6
    ++ encode_bits 0 2
    ++ encode_bits 1 1
    ++ encode_bits 0 1
    ++ encode_bits 0 1
    ++ encode_bits 0 1
    ++ encode_bits 0 1
    ++ encode_bits 0 1
    ++ encode_bits nav.raim 1
    ++ encode_bits nav.radio_status 20

/-- AISBinaryEncoder.encode_type_19 from nmea_lib/ais/messages.py. -/
def encode_type_19 (vessel : VesselState) : List Char :=
  let nav := vessel.navigation_data
  let static := vessel.static_data
  let dims := static.dimensions
  encode_bits 19 6
    ++ encode_bits 0 2
    ++ encode_bits vessel.mmsi 30
    ++ encode_bits 0 8
    ++ encode_sog nav.sog
    ++ encode_bits nav.position_accuracy 1
    ++ encode_longitude nav.position.longitude
    ++ encode_latitude nav.position.latitude
    ++ encode_cog nav.cog
    ++ encode_heading nav.heading
    ++ encode_bits nav.timestamp 6
    ++ encode_bits 0 4
    ++ encode_string static.vessel_name 20
    ++ encode_bits static.ship_type 8
    ++ encode_bits dims.to_bow 9
    ++ encode_bits dims.to_stern 9
    ++ encode_bits dims.to_port 6
    ++ encode_bits dims.to_starboard 6
    ++ encode_bits static.epfd_type 4
    ++ encode_bits nav.raim 1
    ++ encode_bits 1 1
    ++ encode_bits 0 1
    ++ encode_bits 0 4

/-- Closed form of the pad-to-byte-boundary while loop at the end of
encode_type_21. -/
def padToByte (b : List Char) : List Char :=
  b ++ List.replicate ((8 - b.length % 8) % 8) '0'

/-- AISBinaryEncoder.encode_type_21 from nmea_lib/ais/messages.py. -/
def encode_type_21 (aid_nav : AidToNavigationData) : List Char :=
  let dims := aid_nav.dimensions
  padToByte
    (encode_bits 21 6
      ++ encode_bits 0 2
      ++ encode_bits aid_nav.mmsi 30
      ++ encode_bits aid_nav.aid_type 5
      ++ encode_string aid_nav.name 20
      ++ encode_bits aid_nav.position_accuracy 1
      ++ encode_longitude aid_nav.position.longitude
      ++ encode_latitude aid_nav.position.latitude
      ++ encode_bits dims.to_bow 9
      ++ encode_bits dims.to_stern 9
      ++ encode_bits dims.to_port 6
      ++ encode_bits dims.to_starboard 6
      ++ encode_bits aid_nav.epfd_type 4
      ++ encode_bits aid_nav.timestamp 6
      ++ encode_bits aid_nav.off_position 1
      ++ encode_bits aid_nav.regional 8
      ++ encode_bits aid_nav.raim 1
      ++ encode_bits aid_nav.virtual_aid 1
      ++ encode_bits aid_nav.assigned 1
      ++ encode_bits 0 1)

/-- AISBinaryEncoder.encode_type_24_part_a from nmea_lib/ais/messages.py. -/
def encode_type_24_part_a (vessel : VesselState) : List Char :=
  let static := vessel.static_data
  encode_bits 24 6
    ++ encode_bits 0 2
    ++ encode_bits vessel.mmsi 30
    ++ encode_bits 0 2
    ++ encode_string static.vessel_name 20
    ++ encode_bits 0 8

/-- AISBinaryEncoder.encode_type_24_part_b from nmea_lib/ais/messages.py
(note the 2-bit mothership-MMSI field and 6-bit spare after the
dimensions). -/
def encode_type_24_part_b (vessel : VesselState) : List Char :=
  let static := vessel.static_data
  let dims := static.dimensions
  encode_bits 24 6
    ++ encode_bits 0 2
    ++ encode_bits vessel.mmsi 30
    ++ encode_bits 1 2
    ++ encode_bits static.ship_type 8
    ++ encode_string [] 3
    ++ encode_string [] 1
    ++ encode_bits 0 20
    ++ encode_string static.callsign 7
    ++ encode_bits dims.to_bow 9
    ++ encode_bits dims.to_stern 9
    ++ encode_bits dims.to_port 6
    ++ encode_bits dims.to_starboard 6
    ++ encode_bits 0 2
    ++ encode_bits 0 6

/-- A concrete Class-A vessel state with every numeric field inside its
declared range, used to evaluate the encoders. -/
def exampleVessel : VesselState :=
  { static_data :=
      { mmsi := 367123456
        vessel_name := "EVER GIVEN".toList
        callsign := "ABCD123".toList
        ship_type := 70
        dimensions := { to_bow := 100, to_stern := 200, to_port := 20, to_starboard := 12 }
        epfd_type := 1
        imo_number := some 9811000 }
    navigation_data :=
      { position := { latitude := 377749/10000, longitude := -1224194/10000 }
        sog := 123/10
        cog := 2345/10
        heading := 90
        nav_status := 0
        rot := 128
        timestamp := 30
        position_accuracy := 1
        raim := 0
        radio_status := 0 }
    voyage_data :=
      { destination := "ROTTERDAM".toList
        eta := { month := 3, day := 15, hour := 14, minute := 30 }
        draught := 129/10
        dte := 0 } }

/-- A concrete base station record with in-range fields. -/
def exampleBaseStation : BaseStationData :=
  { mmsi := 3669999
    position := { latitude := 477749/10000, longitude := 1224194/10000 }
    timestamp := { year := 2024, month := 6, day := 15, hour := 12, minute := 30, second := 45 }
    epfd_type := 1
    raim := 0
    radio_status := 0 }

/-- A concrete aid-to-navigation record with in-range fields. -/
def exampleAidNav : AidToNavigationData :=
  { mmsi := 993672001
    position := { latitude := 377749/10000, longitude := -1224194/10000 }
    aid_type := 5
    name := "HARBOR LIGHT 1".toList
    dimensions := { to_bow := 2, to_stern := 2, to_port := 2, to_starboard := 2 }
    epfd_type := 7
    timestamp := 30
    off_position := 0
    regional := 0
    raim := 0
    virtual_aid := 0
    assigned := 0
    position_accuracy := 1 }

/-- Helper: pyRound returns the floor or, only when the fractional part is
at least one half, the floor plus one. -/
theorem pyRound_cases (x : ℚ) :
    pyRound x = ⌊x⌋ ∨ (pyRound x = ⌊x⌋ + 1 ∧ 1/2 ≤ x - ⌊x⌋) := by
  unfold pyRound
  dsimp only
  split_ifs with h1 h2 h3
  · left; rfl
  · right; exact ⟨rfl, le_of_lt h2⟩
  · left; rfl
  · right; exact ⟨rfl, not_lt.mp h1⟩

/-- Helper: pyRound never exceeds an integer upper bound of its input. -/
theorem pyRound_le (x : ℚ) (B : ℤ) (h : x ≤ (B : ℚ)) : pyRound x ≤ B := by
  have hfB : ⌊x⌋ ≤ B := by
    have := Int.floor_le_floor h
    rwa [Int.floor_intCast] at this
  rcases pyRound_cases x with hc | ⟨hc, htie⟩
  · omega
  · rw [hc]
    by_contra hcon
    have hfeq : ⌊x⌋ = B := by omega
    have hfx : ((⌊x⌋ : ℤ) : ℚ) + 1/2 ≤ x := by linarith
    rw [hfeq] at hfx
    linarith

/-- Helper: pyRound never goes below an integer lower bound of its input. -/
theorem le_pyRound (x : ℚ) (B : ℤ) (h : (B : ℚ) ≤ x) : B ≤ pyRound x := by
  have hfB : B ≤ ⌊x⌋ := Int.le_floor.mpr h
  rcases pyRound_cases x with hc | ⟨hc, _⟩ <;> omega

/-- Helper: the digit string of a number below 2 to the w has at most w
digits. -/
theorem natBinFuel_length_le : ∀ (fuel n w : Nat), n < 2 ^ w →
    (natBinFuel fuel n).length ≤ w := by
  intro fuel
  induction fuel with
  | zero => intro n w _; simp [natBinFuel]
  | succ fuel ih =>
    intro n w h
    unfold natBinFuel
    split
    · simp
    · rename_i hn
      cases w with
      | zero => simp at h; omega
      | succ w =>
        have hdiv : n / 2 < 2 ^ w := by
          rw [pow_succ] at h
          exact Nat.div_lt_iff_lt_mul (by norm_num) |>.mpr h
        have := ih (n / 2) w hdiv
        simp only [List.length_append, List.length_singleton]
        omega

/-- Helper: format(n, 'b') of a number below 2 to the w has at most w
digits, for positive w. -/
theorem natBin_length_le (n w : Nat) (hw : 0 < w) (h : n < 2 ^ w) :
    (natBin n).length ≤ w := by
  unfold natBin
  split
  · simpa using hw
  · exact natBinFuel_length_le n n w h

/-- Helper: _encode_bits yields exactly the requested width whenever the
value fits the two's-complement range of that width. -/
theorem encode_bits_length (value : Int) (bits : Nat) (hbits : 0 < bits)
    (hlo : -(2 ^ bits : Int) ≤ value) (hhi : value < 2 ^ bits) :
    (encode_bits value bits).length = bits := by
  unfold encode_bits
  have hcast : ((2 ^ bits : Nat) : Int) = 2 ^ bits := by push_cast; rfl
  by_cases hneg : value < 0
  · rw [if_pos hneg]
    have hv0 : (0 : Int) ≤ 2 ^ bits + value := by omega
    have hvlt : 2 ^ bits + value < 2 ^ bits := by omega
    rw [if_neg (not_lt.mpr hv0)]
    have hnat : (2 ^ bits + value).toNat < 2 ^ bits := by omega
    have := natBin_length_le (2 ^ bits + value).toNat bits hbits hnat
    simp only [padLeft, List.length_append, List.length_replicate]
    omega
  · rw [if_neg hneg]
    have hv0 : (0 : Int) ≤ value := not_lt.mp hneg
    rw [if_neg (not_lt.mpr hv0)]
    have hnat : value.toNat < 2 ^ bits := by omega
    have := natBin_length_le value.toNat bits hbits hnat
    simp only [padLeft, List.length_append, List.length_replicate]
    omega

/-- Helper: _encode_bits yields the requested width for nonnegative values
below 2 to the width. -/
theorem encode_bits_length_nonneg (value : Int) (bits : Nat) (hbits : 0 < bits)
    (h0 : 0 ≤ value) (hhi : value < 2 ^ bits) :
    (encode_bits value bits).length = bits :=
  encode_bits_length value bits hbits
    (le_trans (neg_nonpos.mpr (pow_nonneg (by norm_num) bits)) h0) hhi

/-- Helper: the length of a flatMap whose function always returns six
characters. -/
theorem flatMap_length_six (l : List Char) (f : Char → List Char)
    (h : ∀ c, (f c).length = 6) : (l.flatMap f).length = 6 * l.length := by
  induction l with
  | nil => simp
  | cons a l ih =>
    simp only [List.flatMap_cons, List.length_append, ih, h a, List.length_cons]
    ring

/-- Helper: _encode_string always yields exactly 6 bits per requested
character, for every input text. -/
theorem encode_string_length (text : List Char) (max_chars : Nat) :
    (encode_string text max_chars).length = 6 * max_chars := by
  unfold encode_string
  dsimp only
  rw [flatMap_length_six]
  · simp only [List.length_take, List.length_append, List.length_replicate]
    omega
  · intro ch
    have h64 : ((2 : Int) ^ 6) = 64 := by norm_num
    by_cases hr : 32 ≤ (if ch = ' ' then 32 else ch.toUpper.toNat)
        ∧ (if ch = ' ' then 32 else ch.toUpper.toNat) ≤ 95
    · rw [if_pos hr]
      refine encode_bits_length_nonneg _ 6 (by norm_num) (by omega) (by omega)
    · rw [if_neg hr]
      exact encode_bits_length_nonneg 0 6 (by norm_num) (by norm_num) (by norm_num)

/-- Helper: _encode_sog always yields 10 bits. -/
theorem encode_sog_length (sog : ℚ) : (encode_sog sog).length = 10 := by
  have h10 : ((2 : Int) ^ 10) = 1024 := by norm_num
  unfold encode_sog
  split
  · exact encode_bits_length_nonneg 1023 10 (by norm_num) (by norm_num) (by norm_num)
  · have h1 : min 1022 (pyRound (sog * 10)) ≤ 1022 := min_le_left _ _
    exact encode_bits_length_nonneg _ 10 (by norm_num) (le_max_left 0 _) (by omega)

/-- Helper: _encode_cog always yields 12 bits. -/
theorem encode_cog_length (cog : ℚ) : (encode_cog cog).length = 12 := by
  have h12 : ((2 : Int) ^ 12) = 4096 := by norm_num
  unfold encode_cog
  split
  · exact encode_bits_length_nonneg 3600 12 (by norm_num) (by norm_num) (by norm_num)
  · have h1 : min 3599 (pyRound (cog * 10)) ≤ 3599 := min_le_left _ _
    exact encode_bits_length_nonneg _ 12 (by norm_num) (le_max_left 0 _) (by omega)

/-- Helper: _encode_heading always yields 9 bits. -/
theorem encode_heading_length (heading : Int) : (encode_heading heading).length = 9 := by
  have h9 : ((2 : Int) ^ 9) = 512 := by norm_num
  unfold encode_heading
  split
  · exact encode_bits_length_nonneg 511 9 (by norm_num) (by norm_num) (by norm_num)
  · have h1 : min 359 heading ≤ 359 := min_le_left _ _
    exact encode_bits_length_nonneg _ 9 (by norm_num) (le_max_left 0 _) (by omega)

/-- Helper: _encode_rot always yields 8 bits. -/
theorem encode_rot_length (rot : Int) : (encode_rot rot).length = 8 := by
  have h8 : ((2 : Int) ^ 8) = 256 := by norm_num
  unfold encode_rot
  split_ifs with h1 h2 h3
  · exact encode_bits_length_nonneg 128 8 (by norm_num) (by norm_num) (by norm_num)
  · exact encode_bits_length_nonneg 0 8 (by norm_num) (by norm_num) (by norm_num)
  · have hp : 0 ≤ pyRound (4733/1000 * sqrtApprox rot.natAbs) := by
      refine le_pyRound _ 0 ?_
      have : (0 : ℚ) ≤ sqrtApprox rot.natAbs := by
        unfold sqrtApprox
        positivity
      push_cast
      nlinarith
    have hle : min 127 (pyRound (4733/1000 * sqrtApprox rot.natAbs)) ≤ 127 := min_le_left _ _
    refine encode_bits_length_nonneg _ 8 (by norm_num) (by omega) (by omega)
  · have hp : 0 ≤ pyRound (4733/1000 * sqrtApprox rot.natAbs) := by
      refine le_pyRound _ 0 ?_
      have : (0 : ℚ) ≤ sqrtApprox rot.natAbs := by
        unfold sqrtApprox
        positivity
      push_cast
      nlinarith
    have hge : -127 ≤ max (-127) (-(pyRound (4733/1000 * sqrtApprox rot.natAbs))) :=
      le_max_left _ _
    have hle : max (-127) (-(pyRound (4733/1000 * sqrtApprox rot.natAbs))) ≤ 0 := by omega
    exact encode_bits_length _ 8 (by norm_num) (by omega) (by omega)

/-- Helper: _encode_latitude yields 27 bits for every latitude within the
declared range or equal to the not-available sentinel 91. -/
theorem encode_latitude_length (lat : ℚ)
    (h : (-90 ≤ lat ∧ lat ≤ 90) ∨ lat = AIS_NOT_AVAILABLE_latitude) :
    (encode_latitude lat).length = 27 := by
  have h27 : ((2 : Int) ^ 27) = 134217728 := by norm_num
  unfold encode_latitude
  split_ifs with hs
  · exact encode_bits_length_nonneg _ 27 (by norm_num) (by norm_num) (by norm_num)
  · rcases h with ⟨hlo, hhi⟩ | hs91
    · have hple : pyRound (lat * 600000) ≤ 54000000 := by
        refine pyRound_le _ 54000000 ?_
        push_cast
        linarith
      have hpge : (-54000000 : Int) ≤ pyRound (lat * 600000) := by
        refine le_pyRound _ (-54000000) ?_
        push_cast
        linarith
      exact encode_bits_length _ 27 (by norm_num) (by omega) (by omega)
    · exact absurd hs91 hs

/-- Helper: _encode_longitude yields 28 bits for every longitude within
the declared range or equal to the not-available sentinel 181. -/
theorem encode_longitude_length (lon : ℚ)
    (h : (-180 ≤ lon ∧ lon ≤ 180) ∨ lon = AIS_NOT_AVAILABLE_longitude) :
    (encode_longitude lon).length = 28 := by
  have h28 : ((2 : Int) ^ 28) = 268435456 := by norm_num
  unfold encode_longitude
  split_ifs with hs
  · exact encode_bits_length_nonneg _ 28 (by norm_num) (by norm_num) (by norm_num)
  · rcases h with ⟨hlo, hhi⟩ | hs181
    · have hple : pyRound (lon * 600000) ≤ 108000000 := by
        refine pyRound_le _ 108000000 ?_
        push_cast
        linarith
      have hpge : (-108000000 : Int) ≤ pyRound (lon * 600000) := by
        refine le_pyRound _ (-108000000) ?_
        push_cast
        linarith
      exact encode_bits_length _ 28 (by norm_num) (by omega) (by omega)
    · exact absurd hs181 hs

/-- Declared ranges of the navigation fields whose width the encoders do
not enforce by clamping: position (or its sentinel), and the fields that
are passed to _encode_bits unclamped. -/
def navInRange (nav : VesselNavigationData) : Prop :=
  ((-90 ≤ nav.position.latitude ∧ nav.position.latitude ≤ 90)
      ∨ nav.position.latitude = AIS_NOT_AVAILABLE_latitude)
  ∧ ((-180 ≤ nav.position.longitude ∧ nav.position.longitude ≤ 180)
      ∨ nav.position.longitude = AIS_NOT_AVAILABLE_longitude)
  ∧ (0 ≤ nav.nav_status ∧ nav.nav_status < 2 ^ 4)
  ∧ (0 ≤ nav.timestamp ∧ nav.timestamp < 2 ^ 6)
  ∧ (0 ≤ nav.position_accuracy ∧ nav.position_accuracy < 2 ^ 1)
  ∧ (0 ≤ nav.raim ∧ nav.raim < 2 ^ 1)
  ∧ (0 ≤ nav.radio_status ∧ nav.radio_status < 2 ^ 19)

/-- Declared ranges of the static fields passed to _encode_bits. -/
def staticInRange (s : VesselStaticData) : Prop :=
  (0 ≤ s.mmsi ∧ s.mmsi < 2 ^ 30)
  ∧ (0 ≤ s.ship_type ∧ s.ship_type < 2 ^ 8)
  ∧ (0 ≤ s.dimensions.to_bow ∧ s.dimensions.to_bow < 2 ^ 9)
  ∧ (0 ≤ s.dimensions.to_stern ∧ s.dimensions.to_stern < 2 ^ 9)
  ∧ (0 ≤ s.dimensions.to_port ∧ s.dimensions.to_port < 2 ^ 6)
  ∧ (0 ≤ s.dimensions.to_starboard ∧ s.dimensions.to_starboard < 2 ^ 6)
  ∧ (0 ≤ s.epfd_type ∧ s.epfd_type < 2 ^ 4)
  ∧ (0 ≤ s.imo_number.getD 0 ∧ s.imo_number.getD 0 < 2 ^ 30)

/-- Declared ranges of the voyage fields passed to _encode_bits. -/
def voyageInRange (voyage : VesselVoyageData) : Prop :=
  (0 ≤ voyage.eta.month ∧ voyage.eta.month < 2 ^ 4)
  ∧ (0 ≤ voyage.eta.day ∧ voyage.eta.day < 2 ^ 5)
  ∧ (0 ≤ voyage.eta.hour ∧ voyage.eta.hour < 2 ^ 5)
  ∧ (0 ≤ voyage.eta.minute ∧ voyage.eta.minute < 2 ^ 6)
  ∧ 0 ≤ voyage.draught
  ∧ (0 ≤ voyage.dte ∧ voyage.dte < 2 ^ 1)

/-- Declared ranges of the base-station fields passed to _encode_bits. -/
def baseStationInRange (bs : BaseStationData) : Prop :=
  (0 ≤ bs.mmsi ∧ bs.mmsi < 2 ^ 30)
  ∧ (0 ≤ bs.timestamp.year ∧ bs.timestamp.year < 2 ^ 14)
  ∧ (0 ≤ bs.timestamp.month ∧ bs.timestamp.month < 2 ^ 4)
  ∧ (0 ≤ bs.timestamp.day ∧ bs.timestamp.day < 2 ^ 5)
  ∧ (0 ≤ bs.timestamp.hour ∧ bs.timestamp.hour < 2 ^ 5)
  ∧ (0 ≤ bs.timestamp.minute ∧ bs.timestamp.minute < 2 ^ 6)
  ∧ (0 ≤ bs.timestamp.second ∧ bs.timestamp.second < 2 ^ 6)
  ∧ ((-90 ≤ bs.position.latitude ∧ bs.position.latitude ≤ 90)
      ∨ bs.position.latitude = AIS_NOT_AVAILABLE_latitude)
  ∧ ((-180 ≤ bs.position.longitude ∧ bs.position.longitude ≤ 180)
      ∨ bs.position.longitude = AIS_NOT_AVAILABLE_longitude)
  ∧ (0 ≤ bs.epfd_type ∧ bs.epfd_type < 2 ^ 4)
  ∧ (0 ≤ bs.raim ∧ bs.raim < 2 ^ 1)
  ∧ (0 ≤ bs.radio_status ∧ bs.radio_status < 2 ^ 19)

/-- Declared ranges of the aid-to-navigation fields passed to
_encode_bits. -/
def aidNavInRange (an : AidToNavigationData) : Prop :=
  (0 ≤ an.mmsi ∧ an.mmsi < 2 ^ 30)
  ∧ (0 ≤ an.aid_type ∧ an.aid_type < 2 ^ 5)
  ∧ ((-90 ≤ an.position.latitude ∧ an.position.latitude ≤ 90)
      ∨ an.position.latitude = AIS_NOT_AVAILABLE_latitude)
  ∧ ((-180 ≤ an.position.longitude ∧ an.position.longitude ≤ 180)
      ∨ an.position.longitude = AIS_NOT_AVAILABLE_longitude)
  ∧ (0 ≤ an.dimensions.to_bow ∧ an.dimensions.to_bow < 2 ^ 9)
  ∧ (0 ≤ an.dimensions.to_stern ∧ an.dimensions.to_stern < 2 ^ 9)
  ∧ (0 ≤ an.dimensions.to_port ∧ an.dimensions.to_port < 2 ^ 6)
  ∧ (0 ≤ an.dimensions.to_starboard ∧ an.dimensions.to_starboard < 2 ^ 6)
  ∧ (0 ≤ an.epfd_type ∧ an.epfd_type < 2 ^ 4)
  ∧ (0 ≤ an.timestamp ∧ an.timestamp < 2 ^ 6)
  ∧ (0 ≤ an.off_position ∧ an.off_position < 2 ^ 1)
  ∧ (0 ≤ an.regional ∧ an.regional < 2 ^ 8)
  ∧ (0 ≤ an.raim ∧ an.raim < 2 ^ 1)
  ∧ (0 ≤ an.virtual_aid ∧ an.virtual_aid < 2 ^ 1)
  ∧ (0 ≤ an.assigned ∧ an.assigned < 2 ^ 1)
  ∧ (0 ≤ an.position_accuracy ∧ an.position_accuracy < 2 ^ 1)

/-- C1: for every input whose numeric fields are within their declared
ranges, the encoders for types 1, 2, 3, 4, 18 and 24 Part A yield exactly
168 bits, type 5 yields 424, type 19 yields 312 and type 21 yields
exactly 272 bits (a multiple of 8, so at least 272 zero-padded to a byte
boundary) — but encode_type_24_part_b yields 172 bits, not the 168
documented by the claim and by AIS_MESSAGE_LENGTHS in constants.py: its
layout puts a 2-bit mothership-MMSI field and a 6-bit spare after 164
bits of preceding fields. -/
theorem C1_payload_lengths (v : VesselState) (bs : BaseStationData)
    (an : AidToNavigationData) (hnav : navInRange v.navigation_data)
    (hstatic : staticInRange v.static_data) (hvoy : voyageInRange v.voyage_data)
    (hbs : baseStationInRange bs) (han : aidNavInRange an) :
    (encode_type_1 v).length = 168
    ∧ (encode_type_2 v).length = 168
    ∧ (encode_type_3 v).length = 168
    ∧ (encode_type_4 bs).length = 168
    ∧ (encode_type_5 v).length = 424
    ∧ (encode_type_18 v).length = 168
    ∧ (encode_type_19 v).length = 312
    ∧ (encode_type_21 an).length = 272
    ∧ (encode_type_24_part_a v).length = 168
    ∧ (encode_type_24_part_b v).length = 172 := by
  obtain ⟨hlat, hlon, hns, hts, hpa, hraim, hradio⟩ := hnav
  obtain ⟨hmmsi, hship, hbow, hstern, hport, hstar, hepfd, himo⟩ := hstatic
  obtain ⟨hetam, hetad, hetah, hetamin, hdr, hdte⟩ := hvoy
  obtain ⟨bmmsi, byear, bmonth, bday, bhour, bminute, bsecond, blat, blon,
    bepfd, braim, bradio⟩ := hbs
  obtain ⟨ammsi, haid, alat, alon, abow, astern, aport, astar, aepfd, ats,
    aoff, areg, araim, avirt, aassig, apa⟩ := han
  have hradio20 : 0 ≤ v.navigation_data.radio_status
      ∧ v.navigation_data.radio_status < 2 ^ 20 :=
    ⟨hradio.1, lt_trans hradio.2 (by norm_num)⟩
  have ht1 : (encode_type_1 v).length = 168 := by
    unfold encode_type_1 VesselState.mmsi
    dsimp only
    simp only [List.length_append, encode_rot_length, encode_sog_length, encode_cog_length,
      encode_heading_length,
      encode_latitude_length _ hlat, encode_longitude_length _ hlon,
      encode_bits_length_nonneg 1 6 (by norm_num) (by norm_num) (by norm_num),
      encode_bits_length_nonneg 0 2 (by norm_num) (by norm_num) (by norm_num),
      encode_bits_length_nonneg 0 3 (by norm_num) (by norm_num) (by norm_num),
      encode_bits_length_nonneg _ 30 (by norm_num) hmmsi.1 hmmsi.2,
      encode_bits_length_nonneg _ 4 (by norm_num) hns.1 hns.2,
      encode_bits_length_nonneg _ 1 (by norm_num) hpa.1 hpa.2,
      encode_bits_length_nonneg _ 6 (by norm_num) hts.1 hts.2,
      encode_bits_length_nonneg _ 1 (by norm_num) hraim.1 hraim.2,
      encode_bits_length_nonneg _ 19 (by norm_num) hradio.1 hradio.2]
  have ht2 : (encode_type_2 v).length = 168 := by
    unfold encode_type_2
    simp only [List.length_append, List.length_drop, ht1,
      encode_bits_length_nonneg 2 6 (by norm_num) (by norm_num) (by norm_num)]
  have ht3 : (encode_type_3 v).length = 168 := by
    unfold encode_type_3
    simp only [List.length_append, List.length_drop, ht1,
      encode_bits_length_nonneg 3 6 (by norm_num) (by norm_num) (by norm_num)]
  have ht4 : (encode_type_4 bs).length = 168 := by
    unfold encode_type_4
    dsimp only
    simp only [List.length_append,
      encode_latitude_length _ blat, encode_longitude_length _ blon,
      encode_bits_length_nonneg 4 6 (by norm_num) (by norm_num) (by norm_num),
      encode_bits_length_nonneg 0 2 (by norm_num) (by norm_num) (by norm_num),
      encode_bits_length_nonneg 1 1 (by norm_num) (by norm_num) (by norm_num),
      encode_bits_length_nonneg 0 10 (by norm_num) (by norm_num) (by norm_num),
      encode_bits_length_nonneg _ 30 (by norm_num) bmmsi.1 bmmsi.2,
      encode_bits_length_nonneg _ 14 (by norm_num) byear.1 byear.2,
      encode_bits_length_nonneg _ 4 (by norm_num) bmonth.1 bmonth.2,
      encode_bits_length_nonneg _ 5 (by norm_num) bday.1 bday.2,
      encode_bits_length_nonneg _ 5 (by norm_num) bhour.1 bhour.2,
      encode_bits_length_nonneg _ 6 (by norm_num) bminute.1 bminute.2,
      encode_bits_length_nonneg _ 6 (by norm_num) bsecond.1 bsecond.2,
      encode_bits_length_nonneg _ 4 (by norm_num) bepfd.1 bepfd.2,
      encode_bits_length_nonneg _ 1 (by norm_num) braim.1 braim.2,
      encode_bits_length_nonneg _ 19 (by norm_num) bradio.1 bradio.2]
  have hdraught_len :
      (encode_bits (if v.voyage_data.draught < 51/2
          then pyRound (v.voyage_data.draught * 10) else 0) 8).length = 8 := by
    split_ifs with hd
    · have h255 := pyRound_le (v.voyage_data.draught * 10) 255 (by push_cast; linarith)
      have h0 := le_pyRound (v.voyage_data.draught * 10) 0 (by push_cast; linarith)
      refine encode_bits_length_nonneg _ 8 (by norm_num) h0 ?_
      have h256 : ((2 : Int) ^ 8) = 256 := by norm_num
      omega
    · exact encode_bits_length_nonneg 0 8 (by norm_num) (by norm_num) (by norm_num)
  have ht5 : (encode_type_5 v).length = 424 := by
    unfold encode_type_5 VesselState.mmsi
    dsimp only
    simp only [List.length_append, encode_string_length, hdraught_len,
      encode_bits_length_nonneg 5 6 (by norm_num) (by norm_num) (by norm_num),
      encode_bits_length_nonneg 0 2 (by norm_num) (by norm_num) (by norm_num),
      encode_bits_length_nonneg 0 1 (by norm_num) (by norm_num) (by norm_num),
      encode_bits_length_nonneg _ 30 (by norm_num) hmmsi.1 hmmsi.2,
      encode_bits_length_nonneg _ 30 (by norm_num) himo.1 himo.2,
      encode_bits_length_nonneg _ 8 (by norm_num) hship.1 hship.2,
      encode_bits_length_nonneg _ 9 (by norm_num) hbow.1 hbow.2,
      encode_bits_length_nonneg _ 9 (by norm_num) hstern.1 hstern.2,
      encode_bits_length_nonneg _ 6 (by norm_num) hport.1 hport.2,
      encode_bits_length_nonneg _ 6 (by norm_num) hstar.1 hstar.2,
      encode_bits_length_nonneg _ 4 (by norm_num) hepfd.1 hepfd.2,
      encode_bits_length_nonneg _ 4 (by norm_num) hetam.1 hetam.2,
      encode_bits_length_nonneg _ 5 (by norm_num) hetad.1 hetad.2,
      encode_bits_length_nonneg _ 5 (by norm_num) hetah.1 hetah.2,
      encode_bits_length_nonneg _ 6 (by norm_num) hetamin.1 hetamin.2,
      encode_bits_length_nonneg _ 1 (by norm_num) hdte.1 hdte.2]
  have ht18 : (encode_type_18 v).length = 168 := by
    unfold encode_type_18 VesselState.mmsi
    dsimp only
    simp only [List.length_append, encode_sog_length, encode_cog_length,
      encode_heading_length,
      encode_latitude_length _ hlat, encode_longitude_length _ hlon,
      encode_bits_length_nonneg 18 6 (by norm_num) (by norm_num) (by norm_num),
      encode_bits_length_nonneg 0 2 (by norm_num) (by norm_num) (by norm_num),
      encode_bits_length_nonneg 0 8 (by norm_num) (by norm_num) (by norm_num),
      encode_bits_length_nonneg 1 1 (by norm_num) (by norm_num) (by norm_num),
      encode_bits_length_nonneg 0 1 (by norm_num) (by norm_num) (by norm_num),
      encode_bits_length_nonneg _ 30 (by norm_num) hmmsi.1 hmmsi.2,
      encode_bits_length_nonneg _ 1 (by norm_num) hpa.1 hpa.2,
      encode_bits_length_nonneg _ 6 (by norm_num) hts.1 hts.2,
      encode_bits_length_nonneg _ 1 (by norm_num) hraim.1 hraim.2,
      encode_bits_length_nonneg _ 20 (by norm_num) hradio20.1 hradio20.2]
  have ht19 : (encode_type_19 v).length = 312 := by
    unfold encode_type_19 VesselState.mmsi
    dsimp only
    simp only [List.length_append, encode_sog_length, encode_cog_length,
      encode_heading_length, encode_string_length,
      encode_latitude_length _ hlat, encode_longitude_length _ hlon,
      encode_bits_length_nonneg 19 6 (by norm_num) (by norm_num) (by norm_num),
      encode_bits_length_nonneg 0 2 (by norm_num) (by norm_num) (by norm_num),
      encode_bits_length_nonneg 0 8 (by norm_num) (by norm_num) (by norm_num),
      encode_bits_length_nonneg 0 4 (by norm_num) (by norm_num) (by norm_num),
      encode_bits_length_nonneg 1 1 (by norm_num) (by norm_num) (by norm_num),
      encode_bits_length_nonneg 0 1 (by norm_num) (by norm_num) (by norm_num),
      encode_bits_length_nonneg _ 30 (by norm_num) hmmsi.1 hmmsi.2,
      encode_bits_length_nonneg _ 1 (by norm_num) hpa.1 hpa.2,
      encode_bits_length_nonneg _ 6 (by norm_num) hts.1 hts.2,
      encode_bits_length_nonneg _ 8 (by norm_num) hship.1 hship.2,
      encode_bits_length_nonneg _ 9 (by norm_num) hbow.1 hbow.2,
      encode_bits_length_nonneg _ 9 (by norm_num) hstern.1 hstern.2,
      encode_bits_length_nonneg _ 6 (by norm_num) hport.1 hport.2,
      encode_bits_length_nonneg _ 6 (by norm_num) hstar.1 hstar.2,
      encode_bits_length_nonneg _ 4 (by norm_num) hepfd.1 hepfd.2,
      encode_bits_length_nonneg _ 1 (by norm_num) hraim.1 hraim.2]
  have ht21 : (encode_type_21 an).length = 272 := by
    unfold encode_type_21 padToByte
    dsimp only
    simp only [List.length_append, List.length_replicate, encode_string_length,
      encode_latitude_length _ alat, encode_longitude_length _ alon,
      encode_bits_length_nonneg 21 6 (by norm_num) (by norm_num) (by norm_num),
      encode_bits_length_nonneg 0 2 (by norm_num) (by norm_num) (by norm_num),
      encode_bits_length_nonneg 0 1 (by norm_num) (by norm_num) (by norm_num),
      encode_bits_length_nonneg _ 30 (by norm_num) ammsi.1 ammsi.2,
      encode_bits_length_nonneg _ 5 (by norm_num) haid.1 haid.2,
      encode_bits_length_nonneg _ 9 (by norm_num) abow.1 abow.2,
      encode_bits_length_nonneg _ 9 (by norm_num) astern.1 astern.2,
      encode_bits_length_nonneg _ 6 (by norm_num) aport.1 aport.2,
      encode_bits_length_nonneg _ 6 (by norm_num) astar.1 astar.2,
      encode_bits_length_nonneg _ 4 (by norm_num) aepfd.1 aepfd.2,
      encode_bits_length_nonneg _ 6 (by norm_num) ats.1 ats.2,
      encode_bits_length_nonneg _ 1 (by norm_num) aoff.1 aoff.2,
      encode_bits_length_nonneg _ 8 (by norm_num) areg.1 areg.2,
      encode_bits_length_nonneg _ 1 (by norm_num) araim.1 araim.2,
      encode_bits_length_nonneg _ 1 (by norm_num) avirt.1 avirt.2,
      encode_bits_length_nonneg _ 1 (by norm_num) aassig.1 aassig.2,
      encode_bits_length_nonneg _ 1 (by norm_num) apa.1 apa.2]
  have ht24a : (encode_type_24_part_a v).length = 168 := by
    unfold encode_type_24_part_a VesselState.mmsi
    dsimp only
    simp only [List.length_append, encode_string_length,
      encode_bits_length_nonneg 24 6 (by norm_num) (by norm_num) (by norm_num),
      encode_bits_length_nonneg 0 2 (by norm_num) (by norm_num) (by norm_num),
      encode_bits_length_nonneg 0 8 (by norm_num) (by norm_num) (by norm_num),
      encode_bits_length_nonneg _ 30 (by norm_num) hmmsi.1 hmmsi.2]
  have ht24b : (encode_type_24_part_b v).length = 172 := by
    unfold encode_type_24_part_b VesselState.mmsi
    dsimp only
    simp only [List.length_append, encode_string_length,
      encode_bits_length_nonneg 24 6 (by norm_num) (by norm_num) (by norm_num),
      encode_bits_length_nonneg 0 2 (by norm_num) (by norm_num) (by norm_num),
      encode_bits_length_nonneg 1 2 (by norm_num) (by norm_num) (by norm_num),
      encode_bits_length_nonneg 0 20 (by norm_num) (by norm_num) (by norm_num),
      encode_bits_length_nonneg 0 6 (by norm_num) (by norm_num) (by norm_num),
      encode_bits_length_nonneg _ 30 (by norm_num) hmmsi.1 hmmsi.2,
      encode_bits_length_nonneg _ 8 (by norm_num) hship.1 hship.2,
      encode_bits_length_nonneg _ 9 (by norm_num) hbow.1 hbow.2,
      encode_bits_length_nonneg _ 9 (by norm_num) hstern.1 hstern.2,
      encode_bits_length_nonneg _ 6 (by norm_num) hport.1 hport.2,
      encode_bits_length_nonneg _ 6 (by norm_num) hstar.1 hstar.2]
  exact ⟨ht1, ht2, ht3, ht4, ht5, ht18, ht19, ht21, ht24a, ht24b⟩

/-- C1 witness: the length facts evaluated at concrete in-range inputs. -/
theorem C1_payload_lengths_witness :
    (encode_type_1 exampleVessel).length = 168
    ∧ (encode_type_2 exampleVessel).length = 168
    ∧ (encode_type_3 exampleVessel).length = 168
    ∧ (encode_type_4 exampleBaseStation).length = 168
    ∧ (encode_type_5 exampleVessel).length = 424
    ∧ (encode_type_18 exampleVessel).length = 168
    ∧ (encode_type_19 exampleVessel).length = 312
    ∧ (encode_type_21 exampleAidNav).length = 272
    ∧ (encode_type_24_part_a exampleVessel).length = 168
    ∧ (encode_type_24_part_b exampleVessel).length = 172 :=
  C1_payload_lengths exampleVessel exampleBaseStation exampleAidNav
    (by norm_num [navInRange, exampleVessel, AIS_NOT_AVAILABLE_latitude,
      AIS_NOT_AVAILABLE_longitude])
    (by norm_num [staticInRange, exampleVessel])
    (by norm_num [voyageInRange, exampleVessel])
    (by norm_num [baseStationInRange, exampleBaseStation, AIS_NOT_AVAILABLE_latitude,
      AIS_NOT_AVAILABLE_longitude])
    (by norm_num [aidNavInRange, exampleAidNav, AIS_NOT_AVAILABLE_latitude,
      AIS_NOT_AVAILABLE_longitude])

/-- C9: for every vessel state, the type-2 and type-3 payloads agree with
the type-1 payload on every bit after the first six, and their first six
bits are the unsigned 6-bit encodings of 2 and 3. -/
theorem C9_type23_reuse_type1 (v : VesselState) :
    (encode_type_2 v).take 6 = ['0','0','0','0','1','0']
    ∧ (encode_type_2 v).drop 6 = (encode_type_1 v).drop 6
    ∧ (encode_type_3 v).take 6 = ['0','0','0','0','1','1']
    ∧ (encode_type_3 v).drop 6 = (encode_type_1 v).drop 6 := by
  have h2 : encode_bits 2 6 = ['0','0','0','0','1','0'] := by decide
  have h3 : encode_bits 3 6 = ['0','0','0','0','1','1'] := by decide
  have hlen2 : (encode_bits 2 6).length = 6 := by rw [h2]; rfl
  have hlen3 : (encode_bits 3 6).length = 6 := by rw [h3]; rfl
  refine ⟨?_, ?_, ?_, ?_⟩
  · rw [encode_type_2, List.take_left' hlen2, h2]
  · rw [encode_type_2, List.drop_left' hlen2]
  · rw [encode_type_3, List.take_left' hlen3, h3]
  · rw [encode_type_3, List.drop_left' hlen3]

/-- C4: evaluation of _encode_string at the failing inputs.  A space is
encoded as the 6-bit value 0 (the bits 000000), not the value 32 (the
bits 100000) stated by the claim, because the code maps every character
to its code point minus 32; and a lowercase letter is first uppercased,
so the letter a (code point 97, outside 32..95) is encoded as the value
33 rather than the claimed 0.  Both contradict the inline comment of the
code itself, which documents the scheme with the at-sign at 0 and A
at 1. -/
theorem C4_space_maps_to_zero :
    encode_string [' '] 1 = ['0','0','0','0','0','0']
    ∧ encode_bits 32 6 = ['1','0','0','0','0','0']
    ∧ encode_string [' '] 1 ≠ encode_bits 32 6
    ∧ encode_string ['a'] 1 = encode_bits 33 6 := by
  decide

/-- VesselClass from nmea_lib/ais/constants.py. -/
inductive VesselClass where
  | CLASS_A
  | CLASS_B
deriving DecidableEq

/-- MessagePriority from simulator/core/ais_scheduler.py. -/
inductive MessagePriority where
  | HIGH
  | MEDIUM
  | LOW
  | PERIODIC
deriving DecidableEq

/-- The .value of a MessagePriority member (HIGH = 1 and so on). -/
def MessagePriority.value : MessagePriority → Nat
  | .HIGH => 1
  | .MEDIUM => 2
  | .LOW => 3
  | .PERIODIC => 4

/-- ScheduledMessage from simulator/core/ais_scheduler.py; timestamps are
rational seconds. -/
structure ScheduledMessage where
  message_type : Nat
  vessel_mmsi : Nat
  next_transmission : ℚ
  interval : ℚ
  priority : MessagePriority
  last_sent : Option ℚ := none
  send_count : Nat := 0
deriving DecidableEq

/-- ScheduledMessage.is_due: current_time >= next_transmission. -/
def ScheduledMessage.is_due (m : ScheduledMessage) (current_time : ℚ) : Bool :=
  decide (m.next_transmission ≤ current_time)

/-- ScheduledMessage.mark_sent: record the send and schedule the next
transmission one interval later. -/
def ScheduledMessage.mark_sent (m : ScheduledMessage) (sent_time : ℚ) : ScheduledMessage :=
  { m with
    last_sent := some sent_time
    send_count := m.send_count + 1
    next_transmission := sent_time + m.interval }

/-- VesselSchedule from simulator/core/ais_scheduler.py.  Its messages
dictionary, keyed by message type and iterated in insertion order, is
embedded as a list; dictionary assignment replaces in place when the key
exists and appends otherwise. -/
structure VesselSchedule where
  vessel_mmsi : Nat
  vessel_class : VesselClass
  messages : List ScheduledMessage := []
deriving DecidableEq

/-- VesselSchedule.add_message_type: dictionary assignment of a fresh
ScheduledMessage under its message-type key. -/
def VesselSchedule.add_message_type (s : VesselSchedule) (message_type : Nat)
    (interval : ℚ) (priority : MessagePriority) (start_time : ℚ) : VesselSchedule :=
  let msg : ScheduledMessage :=
    { message_type := message_type
      vessel_mmsi := s.vessel_mmsi
      next_transmission := start_time
      interval := interval
      priority := priority }
  { s with messages :=
      if s.messages.any (fun m => m.message_type == message_type)
      then s.messages.map (fun m => if m.message_type == message_type then msg else m)
      else s.messages ++ [msg] }

/-- Stable insertion into a list sorted by ascending priority value. -/
def insertByPriority (m : ScheduledMessage) : List ScheduledMessage → List ScheduledMessage
  | [] => [m]
  | x :: xs =>
      if m.priority.value ≤ x.priority.value then m :: x :: xs
      else x :: insertByPriority m xs

/-- Stable insertion sort by ascending priority value: the same function
as Python list.sort with key priority.value, which is also a stable sort
by that key (stable sorts by one key agree on every input). -/
def sortByPriority : List ScheduledMessage → List ScheduledMessage
  | [] => []
  | x :: xs => insertByPriority x (sortByPriority xs)

/-- VesselSchedule.get_due_messages: the due messages in insertion order,
then sorted by ascending priority value. -/
def VesselSchedule.get_due_messages (s : VesselSchedule) (current_time : ℚ) :
    List ScheduledMessage :=
  sortByPriority (s.messages.filter (fun m => m.is_due current_time))

/-- VesselSchedule.mark_message_sent: mark_sent on the entry with the
given message-type key, when present; no change otherwise. -/
def VesselSchedule.mark_message_sent (s : VesselSchedule) (message_type : Nat)
    (sent_time : ℚ) : VesselSchedule :=
  { s with messages :=
      s.messages.map (fun m =>
        if m.message_type = message_type then m.mark_sent sent_time else m) }

/-- AISMessageScheduler from simulator/core/ais_scheduler.py: the
vessel_schedules dictionary, keyed by MMSI and iterated in insertion
order, embedded as a list.  The unused global_message_queue and the
cleanup bookkeeping fields play no part in the claims below. -/
structure AISMessageScheduler where
  vessel_schedules : List VesselSchedule := []
deriving DecidableEq

/-- The interval entries of the message_configs table built by
_create_message_configs (a missing key would raise KeyError in Python;
the catch-all 0 is never reached by the callers below). -/
def message_config_interval : Nat → ℚ
  | 1 => 2
  | 2 => 2
  | 3 => 2
  | 4 => 10
  | 5 => 360
  | 18 => 3
  | 19 => 30
  | 21 => 180
  | 24 => 360
  | _ => 0

/-- AISMessageScheduler.add_vessel: build the per-class schedule and store
it under the vessel MMSI (dictionary assignment). -/
def AISMessageScheduler.add_vessel (sch : AISMessageScheduler) (mmsi : Nat)
    (vessel_class : VesselClass) (start_time : ℚ) : AISMessageScheduler :=
  let schedule : VesselSchedule := { vessel_mmsi := mmsi, vessel_class := vessel_class }
  let schedule :=
    match vessel_class with
    | .CLASS_A =>
        (((schedule.add_message_type 1 (message_config_interval 1)
              .HIGH start_time).add_message_type 5 (message_config_interval 5)
              .LOW (start_time + 30)).add_message_type 2 (message_config_interval 2 * 5)
              .HIGH (start_time + 10)).add_message_type 3 (message_config_interval 3 * 10)
              .HIGH (start_time + 20)
    | .CLASS_B =>
        ((schedule.add_message_type 18 (message_config_interval 18)
            .HIGH start_time).add_message_type 19 (message_config_interval 19)
            .MEDIUM (start_time + 15)).add_message_type 24 (message_config_interval 24)
            .LOW (start_time + 45)
  { sch with vessel_schedules :=
      if sch.vessel_schedules.any (fun s => s.vessel_mmsi == mmsi)
      then sch.vessel_schedules.map (fun s => if s.vessel_mmsi == mmsi then schedule else s)
      else sch.vessel_schedules ++ [schedule] }

/-- AISMessageScheduler.get_due_messages: the (MMSI, message-type) pairs
of the due messages of every schedule, per-schedule sorted lists
concatenated in schedule insertion order. -/
def AISMessageScheduler.get_due_messages (sch : AISMessageScheduler) (current_time : ℚ) :
    List (Nat × Nat) :=
  sch.vessel_schedules.flatMap fun schedule =>
    (schedule.get_due_messages current_time).map fun m => (m.vessel_mmsi, m.message_type)

/-- The due ScheduledMessage records underlying get_due_messages, in the
same order (the returned pairs are their MMSI and type fields). -/
def AISMessageScheduler.due_scheduled (sch : AISMessageScheduler) (current_time : ℚ) :
    List ScheduledMessage :=
  sch.vessel_schedules.flatMap fun schedule => schedule.get_due_messages current_time

/-- AISMessageScheduler.mark_message_sent: delegate to the schedule stored
under the MMSI, when present; no change otherwise. -/
def AISMessageScheduler.mark_message_sent (sch : AISMessageScheduler) (vessel_mmsi : Nat)
    (message_type : Nat) (sent_time : ℚ) : AISMessageScheduler :=
  { sch with vessel_schedules :=
      sch.vessel_schedules.map (fun s =>
        if s.vessel_mmsi = vessel_mmsi then s.mark_message_sent message_type sent_time
        else s) }

/-- Helper: mapping a function that fixes every element of a list leaves
the list unchanged. -/
theorem list_map_eq_self {α : Type} (l : List α) (f : α → α) (h : ∀ x ∈ l, f x = x) :
    l.map f = l := by
  induction l with
  | nil => rfl
  | cons a l ih =>
    rw [List.map_cons, h a (List.mem_cons_self a l),
      ih (fun x hx => h x (List.mem_cons_of_mem a hx))]

/-- C10: mark_message_sent with an MMSI that has no schedule, or with a
message type not scheduled for that MMSI, returns the scheduler state
unchanged (and, being a total function of the embedded code, raises
nothing). -/
theorem C10_mark_sent_unknown_noop (sch : AISMessageScheduler) (t : ℚ) (mmsi ty : Nat)
    (h : ∀ s ∈ sch.vessel_schedules, s.vessel_mmsi = mmsi →
      ∀ m ∈ s.messages, m.message_type ≠ ty) :
    sch.mark_message_sent mmsi ty t = sch := by
  unfold AISMessageScheduler.mark_message_sent
  rw [list_map_eq_self]
  intro s hs
  by_cases hm : s.vessel_mmsi = mmsi
  · rw [if_pos hm]
    unfold VesselSchedule.mark_message_sent
    rw [list_map_eq_self]
    intro m hmm
    rw [if_neg (h s hs hm m hmm)]
  · rw [if_neg hm]

/-- A scheduler holding one Class-A vessel with MMSI 7 registered at
time 0. -/
def exampleScheduler : AISMessageScheduler :=
  AISMessageScheduler.mk [] |>.add_vessel 7 .CLASS_A 0

/-- C10 witness: marking an unregistered MMSI, and an unscheduled type of
a registered MMSI, both leave the concrete scheduler unchanged. -/
theorem C10_mark_sent_unknown_noop_witness :
    exampleScheduler.mark_message_sent 9 1 5 = exampleScheduler
    ∧ exampleScheduler.mark_message_sent 7 99 5 = exampleScheduler :=
  ⟨C10_mark_sent_unknown_noop exampleScheduler 5 9 1 (by decide),
   C10_mark_sent_unknown_noop exampleScheduler 5 7 99 (by decide)⟩

/-- C7: registering a Class-A target at t0 makes type 1 due at t0 while
type 5 is not (it first comes due at t0 + 30); the registered type-1
interval is 2.0 seconds, and after marking type 1 sent at t0 it is not
due at t0 + 1.9 but due again at t0 + 2.0. -/
theorem C7_classA_type1_timing (t0 : ℚ) (mmsi : Nat) :
    (mmsi, 1) ∈ (AISMessageScheduler.mk [] |>.add_vessel mmsi .CLASS_A t0).get_due_messages t0
    ∧ (mmsi, 5) ∉ (AISMessageScheduler.mk [] |>.add_vessel mmsi .CLASS_A t0).get_due_messages t0
    ∧ (∀ s ∈ (AISMessageScheduler.mk [] |>.add_vessel mmsi .CLASS_A t0).vessel_schedules,
        ∀ m ∈ s.messages, m.message_type = 1 → m.interval = 2)
    ∧ (mmsi, 1) ∉ ((AISMessageScheduler.mk [] |>.add_vessel mmsi .CLASS_A t0).mark_message_sent
        mmsi 1 t0).get_due_messages (t0 + 19/10)
    ∧ (mmsi, 1) ∈ ((AISMessageScheduler.mk [] |>.add_vessel mmsi .CLASS_A t0).mark_message_sent
        mmsi 1 t0).get_due_messages (t0 + 2) := by
  refine ⟨?_, ?_, ?_, ?_, ?_⟩ <;>
    norm_num [AISMessageScheduler.add_vessel, AISMessageScheduler.get_due_messages,
      AISMessageScheduler.mark_message_sent, VesselSchedule.add_message_type,
      VesselSchedule.get_due_messages, VesselSchedule.mark_message_sent,
      ScheduledMessage.is_due, ScheduledMessage.mark_sent, sortByPriority, insertByPriority,
      MessagePriority.value, message_config_interval, List.filter]

/-- C7 witness: the timing facts at registration time 0 for MMSI 7. -/
theorem C7_classA_type1_timing_witness :
    (7, 1) ∈ (AISMessageScheduler.mk [] |>.add_vessel 7 .CLASS_A 0).get_due_messages 0
    ∧ (7, 5) ∉ (AISMessageScheduler.mk [] |>.add_vessel 7 .CLASS_A 0).get_due_messages 0
    ∧ (∀ s ∈ (AISMessageScheduler.mk [] |>.add_vessel 7 .CLASS_A 0).vessel_schedules,
        ∀ m ∈ s.messages, m.message_type = 1 → m.interval = 2)
    ∧ (7, 1) ∉ ((AISMessageScheduler.mk [] |>.add_vessel 7 .CLASS_A 0).mark_message_sent
        7 1 0).get_due_messages (0 + 19/10)
    ∧ (7, 1) ∈ ((AISMessageScheduler.mk [] |>.add_vessel 7 .CLASS_A 0).mark_message_sent
        7 1 0).get_due_messages (0 + 2) :=
  C7_classA_type1_timing 0 7

/-- Helper: inserting into the priority-sorted list is a permutation of
consing. -/
theorem insertByPriority_perm (m : ScheduledMessage) (l : List ScheduledMessage) :
    (insertByPriority m l).Perm (m :: l) := by
  induction l with
  | nil => exact List.Perm.refl _
  | cons x xs ih =>
    unfold insertByPriority
    split
    · exact List.Perm.refl _
    · exact (List.Perm.cons x ih).trans (List.Perm.swap m x xs)

/-- Helper: the priority sort permutes its input. -/
theorem sortByPriority_perm (l : List ScheduledMessage) : (sortByPriority l).Perm l := by
  induction l with
  | nil => exact List.Perm.refl _
  | cons x xs ih =>
    exact (insertByPriority_perm x (sortByPriority xs)).trans (List.Perm.cons x ih)

/-- Helper: membership is preserved by the priority sort. -/
theorem mem_sortByPriority (a : ScheduledMessage) (l : List ScheduledMessage) :
    a ∈ sortByPriority l ↔ a ∈ l :=
  (sortByPriority_perm l).mem_iff

/-- Helper: inserting into a list that is pairwise ordered by ascending
priority value keeps it pairwise ordered. -/
theorem insertByPriority_pairwise (m : ScheduledMessage) (l : List ScheduledMessage)
    (h : l.Pairwise (fun a b => a.priority.value ≤ b.priority.value)) :
    (insertByPriority m l).Pairwise (fun a b => a.priority.value ≤ b.priority.value) := by
  induction l with
  | nil => simp [insertByPriority]
  | cons x xs ih =>
    rw [List.pairwise_cons] at h
    unfold insertByPriority
    split
    · rename_i hle
      rw [List.pairwise_cons]
      constructor
      · intro y hy
        rcases List.mem_cons.1 hy with rfl | hy
        · exact hle
        · exact le_trans hle (h.1 y hy)
      · rw [List.pairwise_cons]
        exact h
    · rename_i hgt
      rw [List.pairwise_cons]
      constructor
      · intro y hy
        rcases List.mem_cons.1 ((insertByPriority_perm m xs).mem_iff.1 hy) with rfl | hyxs
        · omega
        · exact h.1 y hyxs
      · exact ih h.2
  
/-- Helper: the priority sort yields a list pairwise ordered by ascending
priority value. -/
theorem sortByPriority_pairwise (l : List ScheduledMessage) :
    (sortByPriority l).Pairwise (fun a b => a.priority.value ≤ b.priority.value) := by
  induction l with
  | nil => simp [sortByPriority]
  | cons x xs ih => exact insertByPriority_pairwise x (sortByPriority xs) ih

/-- A scheduler with two Class-A vessels registered at time 0 where, at
query time 30, the first vessel (registered first) has only its LOW
priority type-5 message due while the second vessel has HIGH priority
messages due: the types 1, 2 and 3 of vessel 1 were marked sent late
enough that their next transmissions fall after time 30. -/
def exampleScheduler2 : AISMessageScheduler :=
  ((((AISMessageScheduler.mk [] |>.add_vessel 1 .CLASS_A 0).add_vessel 2 .CLASS_A 0
    ).mark_message_sent 1 1 29).mark_message_sent 1 2 25).mark_message_sent 1 3 15

/-- C6 counterexample: at time 30 the scheduler returns the LOW-priority
pair (1, 5) before the HIGH-priority pairs of vessel 2, so the returned
list as a whole is not ordered by ascending priority value across
targets: the priority values run 3, 1, 1, 1, 3. -/
theorem C6_counterexample :
    exampleScheduler2.get_due_messages 30 = [(1, 5), (2, 1), (2, 2), (2, 3), (2, 5)]
    ∧ (exampleScheduler2.due_scheduled 30).map (fun m => m.priority.value) = [3, 1, 1, 1, 3]
    ∧ ¬ ((exampleScheduler2.due_scheduled 30).Pairwise
        (fun a b => a.priority.value ≤ b.priority.value)) := by
  refine ⟨?_, ?_, ?_⟩ <;>
    norm_num [exampleScheduler2, AISMessageScheduler.add_vessel,
      AISMessageScheduler.get_due_messages, AISMessageScheduler.due_scheduled,
      AISMessageScheduler.mark_message_sent, VesselSchedule.add_message_type,
      VesselSchedule.get_due_messages, VesselSchedule.mark_message_sent,
      ScheduledMessage.is_due, ScheduledMessage.mark_sent, sortByPriority, insertByPriority,
      MessagePriority.value, message_config_interval, List.filter, List.pairwise_cons]

/-- C6 amended: get_due_messages returns exactly the due (MMSI, type)
pairs, and each target's contribution is ordered by ascending priority
value; the overall list is grouped by target in registration order, not
globally sorted by priority. -/
theorem C6_due_pairs_and_per_target_order (sch : AISMessageScheduler) (t : ℚ) :
    (∀ mmsi ty : Nat, (mmsi, ty) ∈ sch.get_due_messages t ↔
      ∃ s ∈ sch.vessel_schedules, ∃ m ∈ s.messages,
        m.vessel_mmsi = mmsi ∧ m.message_type = ty ∧ m.is_due t = true)
    ∧ ∀ s ∈ sch.vessel_schedules,
        (s.get_due_messages t).Pairwise (fun a b => a.priority.value ≤ b.priority.value) := by
  constructor
  · intro mmsi ty
    unfold AISMessageScheduler.get_due_messages VesselSchedule.get_due_messages
    simp only [List.mem_flatMap, List.mem_map, mem_sortByPriority, List.mem_filter]
    constructor
    · rintro ⟨s, hs, m, ⟨hm, hdue⟩, heq⟩
      exact ⟨s, hs, m, hm, by simpa using congrArg Prod.fst heq,
        by simpa using congrArg Prod.snd heq, hdue⟩
    · rintro ⟨s, hs, m, hm, h1, h2, hdue⟩
      exact ⟨s, hs, m, ⟨hm, hdue⟩, by rw [h1, h2]⟩
  · intro s _
    exact sortByPriority_pairwise _

/-- C6 witness: by the membership law, the type-1 pair of the single
registered vessel is due at its registration time. -/
theorem C6_due_pairs_and_per_target_order_witness :
    (7, 1) ∈ exampleScheduler.get_due_messages 0 :=
  ((C6_due_pairs_and_per_target_order exampleScheduler 0).1 7 1).mpr (by decide)
